import Mathlib

/-!
# AI_Translator: the browser-side form controller (`static/js/main.js`)

A shallow embedding of the controller.  Handlers are straight-line scripts over the
DOM, so every handler is embedded as the list of effects it performs, in program
order (`Action`), and the displayed state is obtained by replaying the effects
(`run`).  What the environment contributes (the outcome of `fetch`, the body of the
response, the events of the progress stream) is an explicit argument.

Conventions of the embedding:

* a DOM property is a record field and an assignment stores the string it is given,
  except `style.width`, whose setter keeps the previous value when the text is not
  a value of the `width` property; that test belongs to the browser and is a
  parameter (`WidthParser`) of the replay;
* JavaScript values read out of parsed JSON are `JsVal`: the JSON scalars and
  `undefined` for a member that is absent; a number is given by the decimal digits
  and exponent from which JavaScript renders it;
* selectors built from text are parsed as selector text (`parseSelector`), over the
  part of the selector grammar described there.
-/

namespace AITranslator

/-! ## JavaScript values -/

/-- A JavaScript number as `JSON.parse` can produce it: a finite value
`± significand × 10 ^ exponent`, or an infinity (a literal beyond the range of
doubles).  A double is given by the digits of its shortest decimal form, the form
from which the language renders it, so every double has a value of this type and
`toStr` is its rendering; how the digits of the JSON text round to a double is
not part of the model. -/
inductive JsNum where
  | finite (negative : Bool) (significand : Nat) (exponent : Int)
  | infinite (negative : Bool)
  deriving DecidableEq, Repr

namespace JsNum

/-- The non-negative integer `n`. -/
def ofNat (n : Nat) : JsNum := .finite false n 0

/-- Decimal digits without trailing zeros, and the number of zeros removed. -/
def stripZeros (ds : List Char) : List Char × Nat :=
  let kept := (ds.reverse.dropWhile fun c => c = '0').reverse
  (kept, ds.length - kept.length)

/-- The rendering of the positive value `0.d₁d₂…dₖ × 10 ^ n` (`Number::toString`,
radix 10): plain decimal notation for `-5 ≤ n ≤ 21`, exponent notation otherwise. -/
def renderDigits (ds : List Char) (n : Int) : String :=
  let k : Int := ds.length
  if -5 ≤ n ∧ n ≤ 21 then
    if k ≤ n then String.mk (ds ++ List.replicate (n - k).toNat '0')
    else if 0 < n then String.mk (ds.take n.toNat ++ '.' :: ds.drop n.toNat)
    else String.mk ('0' :: '.' :: (List.replicate (-n).toNat '0' ++ ds))
  else
    let e := n - 1
    let tail := (if 0 ≤ e then "e+" else "e-") ++ toString e.natAbs
    match ds with
    | [] => "0"
    | [d] => String.mk [d] ++ tail
    | d :: rest => String.mk (d :: '.' :: rest) ++ tail

/-- String conversion of a number (`Number::toString`, radix 10). -/
def toStr : JsNum → String
  | infinite false => "Infinity"
  | infinite true => "-Infinity"
  | finite negative significand exponent =>
    if significand = 0 then "0"
    else
      let (ds, removed) := stripZeros (Nat.toDigits 10 significand)
      (if negative then "-" else "") ++ renderDigits ds (ds.length + removed + exponent)

/-- Truthiness of a number: every number but zero. -/
def truthy : JsNum → Bool
  | infinite _ => true
  | finite _ significand _ => significand != 0

end JsNum

/-- Scalar JavaScript values as they come out of `JSON.parse`, with `undefined`
standing for an absent member. -/
inductive JsVal where
  | undefined
  | null
  | bool (b : Bool)
  | num (n : JsNum)
  | str (s : String)
  deriving DecidableEq, Repr

namespace JsVal

/-- String conversion as performed by a template literal and by `new Error(v)`. -/
def toStr : JsVal → String
  | undefined => "undefined"
  | null => "null"
  | bool true => "true"
  | bool false => "false"
  | num n => n.toStr
  | str s => s

/-- Truthiness, as tested by `||`. -/
def truthy : JsVal → Bool
  | undefined => false
  | null => false
  | bool b => b
  | num n => n.truthy
  | str s => s != ""

/-- The expression `v || d`. -/
def orElse (v d : JsVal) : JsVal := if v.truthy then v else d

/-- The string stored by `node.textContent = v`: the attribute is a nullable
string, so `null` and `undefined` store the empty string. -/
def toTextContent : JsVal → String
  | undefined => ""
  | null => ""
  | v => v.toStr

end JsVal

/-! ## Display strings (literals of `main.js`) -/

def startLabel : String := "شروع ترجمه"
def translatingLabel : String := "در حال ترجمه..."
def uploadingMsg : String := "در حال ارسال فایل..."
def noFileMsg : String := "لطفاً یک فایل را برای ترجمه انتخاب کنید."
def fallbackMsg : String := "خطا در شروع فرآیند ترجمه."
def errorLabel : String := "خطا: "
def successMsg : String := "ترجمه با موفقیت انجام شد!"
def taskErrorLabel : String := "خطا در ترجمه: "
def connectionLostMsg : String := "ارتباط با سرور قطع شد. لطفاً دوباره تلاش کنید."

/-! ## Settings store (`localStorage`) -/

/-- The content of `localStorage`: `getItem` yields `null` (`none`) for a missing key. -/
abbrev Storage := String → Option String

def Storage.empty : Storage := fun _ => none

def Storage.getItem (st : Storage) (key : String) : Option String := st key

def Storage.setItem (st : Storage) (key value : String) : Storage :=
  fun k => if k = key then some value else st k

/-- The expression `localStorage.getItem(key) || dflt`. -/
def getItemOr (st : Storage) (key dflt : String) : String :=
  match st.getItem key with
  | some v => if v != "" then v else dflt
  | none => dflt

/-- The values of the form controls the script reads. -/
structure Controls where
  geminiKey : String
  deepseekKey : String
  proxy : String
  aiProvider : String
  style : String
  targetLang : String
  deriving DecidableEq, Repr

def loadSettings (st : Storage) (c : Controls) : Controls :=
  { c with
    geminiKey := getItemOr st "geminiApiKey" ""
    deepseekKey := getItemOr st "deepseekApiKey" ""
    proxy := getItemOr st "proxyUrl" ""
    aiProvider := getItemOr st "aiProvider" "gemini" }

def saveSettings (c : Controls) (st : Storage) : Storage :=
  (((st.setItem "geminiApiKey" c.geminiKey).setItem "deepseekApiKey" c.deepseekKey).setItem
    "proxyUrl" c.proxy).setItem "aiProvider" c.aiProvider

/-! ## Page structure -/

structure File where
  name : String
  deriving DecidableEq, Repr

/-- An `input[type="file"]` element. -/
structure FileInput where
  name : String
  files : List File
  deriving DecidableEq, Repr

/-- A `.tab-content` panel; `active` is membership of the class `active`.  A panel
carries no other class. -/
structure Panel where
  id : String
  active : Bool
  inputs : List FileInput
  deriving DecidableEq, Repr

/-- The tab panels in document order, and the `active` flag of every `.tab-link`.
Other elements are not part of the page model, so an id always names a panel. -/
structure Page where
  panels : List Panel
  links : List Bool
  deriving DecidableEq, Repr

/-! ## Displayed state and effects -/

structure UI where
  submitDisabled : Bool
  submitLabel : String
  progressHidden : Bool
  barWidth : String
  statusText : String
  downloadHidden : Bool
  downloadHref : String
  deriving DecidableEq, Repr

inductive FormValue where
  | file (f : File)
  | text (s : String)
  deriving DecidableEq, Repr

abbrev FormData := List (String × FormValue)

/-- One effect of a handler on the page or on the network. -/
inductive Action where
  | preventDefault
  | alert (msg : String)
  | setDisabled (b : Bool)
  | setLabel (s : String)
  | showProgressArea
  | setBarWidth (w : String)
  | setStatus (s : String)
  | hideDownload
  | showDownload
  | setHref (u : String)
  | fetch (url method : String) (body : FormData)
  | openStream (url : String)
  | closeStream
  deriving DecidableEq, Repr

/-- The test the browser applies to the text assigned to `style.width`: whether
the text is a value of the `width` property. -/
abbrev WidthParser := String → Bool

/-- One effect on the displayed state.  `barWidth` is the text of the last width
assignment the browser accepted. -/
def Action.apply (css : WidthParser) (ui : UI) : Action → UI
  | .preventDefault => ui
  | .alert _ => ui
  | .setDisabled b => { ui with submitDisabled := b }
  | .setLabel s => { ui with submitLabel := s }
  | .showProgressArea => { ui with progressHidden := false }
  | .setBarWidth w => { ui with barWidth := if css w then w else ui.barWidth }
  | .setStatus s => { ui with statusText := s }
  | .hideDownload => { ui with downloadHidden := true }
  | .showDownload => { ui with downloadHidden := false }
  | .setHref u => { ui with downloadHref := u }
  | .fetch _ _ _ => ui
  | .openStream _ => ui
  | .closeStream => ui

/-- The displayed state after a trace of effects. -/
def run (css : WidthParser) (ui : UI) (trace : List Action) : UI :=
  trace.foldl (Action.apply css) ui

/-- Network actions of a trace: requests issued and streams opened. -/
def Action.isNetwork : Action → Bool
  | .fetch _ _ _ => true
  | .openStream _ => true
  | _ => false

def closes (trace : List Action) : Nat := trace.count Action.closeStream

def enables (trace : List Action) : Nat := trace.count (Action.setDisabled false)

def relabels (trace : List Action) : Nat := trace.count (Action.setLabel startLabel)

def streamsOpened (trace : List Action) : List String :=
  trace.filterMap fun a => match a with
    | .openStream u => some u
    | _ => none

def requests (trace : List Action) : List (String × String × FormData) :=
  trace.filterMap fun a => match a with
    | .fetch u m b => some (u, m, b)
    | _ => none

/-! ## Progress monitor -/

/-- The members of a progress payload the handler reads. -/
structure ProgressEvent where
  progress : JsVal
  message : JsVal
  status : JsVal
  download_url : JsVal
  deriving DecidableEq, Repr

/-- What `JSON.parse(event.data)` gives the handler: `failure` when the parse
throws or yields `null` (the first member read throws), otherwise the members. -/
inductive Parsed where
  | failure
  | record (d : ProgressEvent)
  deriving DecidableEq, Repr

def onmessage : Parsed → List Action
  | .failure => []
  | .record d =>
    [.setBarWidth (d.progress.toStr ++ "%"), .setStatus d.message.toTextContent] ++
      if d.status = .str "completed" then
        [.closeStream, .setDisabled false, .setLabel startLabel, .setStatus successMsg,
          .setHref d.download_url.toStr, .showDownload]
      else if d.status = .str "error" then
        [.closeStream, .setDisabled false, .setLabel startLabel,
          .setStatus (taskErrorLabel ++ d.message.toStr)]
      else []

def onerror : List Action :=
  [.setStatus connectionLostMsg, .setDisabled false, .setLabel startLabel, .closeStream]

/-- What the stream delivers: a message or a transport error. -/
inductive StreamInput where
  | message (p : Parsed)
  | error
  deriving DecidableEq, Repr

def StreamInput.handle : StreamInput → List Action
  | .message p => onmessage p
  | .error => onerror

/-- An input whose handler takes a terminal transition. -/
def StreamInput.isTerminal : StreamInput → Bool
  | .message (.record d) => d.status = .str "completed" || d.status = .str "error"
  | .message .failure => false
  | .error => true

/-- A monitoring session: inputs are handled in delivery order, and an
`EventSource` on which `close()` was called dispatches nothing further. -/
def session : List StreamInput → List Action
  | [] => []
  | i :: rest => if closes i.handle = 0 then i.handle ++ session rest else i.handle

def listenForProgress (taskId : JsVal) (stream : List StreamInput) : List Action :=
  .openStream ("/progress/" ++ taskId.toStr) :: session stream

/-- Handlers applied to a sequence of payloads, one after the other. -/
def handleAll (events : List ProgressEvent) : List Action :=
  events.flatMap fun d => onmessage (.record d)

/-! ## Submission flow -/

/-- What `response.json()` gives the handler: `failure msg` when it rejects or
yields `null` (the member read throws), `msg` being the message of the exception;
otherwise the members the handler reads. -/
inductive Body where
  | failure (msg : String)
  | record (error task_id : JsVal)
  deriving DecidableEq, Repr

inductive FetchOutcome where
  | rejected (msg : String)
  | response (ok : Bool) (body : Body)
  deriving DecidableEq, Repr

/-- The element found by `document.querySelector('.tab-content.active')`. -/
def activeTab (page : Page) : Option Panel := page.panels.find? fun p => p.active

def formData (tab : Panel) (file : File) (c : Controls) : FormData :=
  [("file", .file file),
   ("gemini_key", .text c.geminiKey),
   ("deepseek_key", .text c.deepseekKey),
   ("proxy_url", .text c.proxy),
   ("ai_provider", .text c.aiProvider),
   ("style", .text c.style),
   ("target_lang", .text c.targetLang),
   ("file_type", .text (if tab.id = "docs" then "document" else "subtitle"))]

/-- The body of the `try` block after the request was sent: the effects that
follow, or the message of the exception thrown. -/
def tryBlock (net : FetchOutcome) (stream : List StreamInput) : Except String (List Action) :=
  match net with
  | .rejected msg => .error msg
  | .response false (.failure msg) => .error msg
  | .response false (.record err _) => .error ((err.orElse (.str fallbackMsg)).toStr)
  | .response true (.failure msg) => .error msg
  | .response true (.record _ taskId) => .ok (listenForProgress taskId stream)

/-- The file picked up by the submit handler: `none` when a lookup throws,
`some none` when the active tab's file input holds no file. -/
def selectedFile (page : Page) : Option (Option (Panel × File)) :=
  match activeTab page with
  | none => none
  | some tab =>
    match tab.inputs.head? with
    | none => none
    | some input =>
      match input.files.head? with
      | none => some none
      | some file => some (some (tab, file))

/-- The `submit` listener of the form, followed by the monitoring session it starts. -/
def submitHandler (page : Page) (c : Controls) (net : FetchOutcome)
    (stream : List StreamInput) : List Action :=
  .preventDefault ::
    match selectedFile page with
    | none => []
    | some none => [.alert noFileMsg]
    | some (some (tab, file)) =>
      [.setDisabled true, .setLabel translatingLabel, .showProgressArea, .setBarWidth "0%",
        .setStatus uploadingMsg, .hideDownload, .fetch "/translate" "POST" (formData tab file c)] ++
        match tryBlock net stream with
        | .ok acts => acts
        | .error msg => [.setStatus (errorLabel ++ msg), .setDisabled false, .setLabel startLabel]

/-! ## Tab switcher -/

/-- The event passed to `openTab`; `currentTarget` is the position of the invoking
`.tab-link`, or `none` when the event has no current target. -/
structure TabEvent where
  currentTarget : Option Nat
  deriving DecidableEq, Repr

/-- The effect of `document.getElementById(tabName).classList.add('active')`;
`none` when no element has that id. -/
def activateById (tabName : String) : List Panel → Option (List Panel)
  | [] => none
  | p :: ps =>
    if p.id = tabName then some ({ p with active := true } :: ps)
    else (activateById tabName ps).map fun qs => p :: qs

def clearNames (ps : List Panel) : List Panel :=
  ps.map fun p => { p with inputs := p.inputs.map fun i => { i with name := "" } }

/-- A simple selector: `#name` or `.name`. -/
inductive Simple where
  | id (name : String)
  | cls (name : String)
  deriving DecidableEq, Repr

/-- A complex selector of the modelled part of the grammar: `s`, or
`s input[type="file"]`, or `input[type="file"]` alone. -/
inductive Complex where
  | element (s : Simple)
  | fileInputIn (s : Simple)
  | fileInput
  deriving DecidableEq, Repr

/-- The reading of selector text: a selector list, text that is no selector
(the query throws `SyntaxError`), or text outside the modelled grammar. -/
inductive Parse (α : Type) where
  | ok (value : α)
  | invalid
  | unmodelled
  deriving DecidableEq, Repr

def splitCommas : List Char → List (List Char)
  | [] => [[]]
  | c :: cs =>
    match splitCommas cs with
    | [] => [[c]]
    | p :: ps => if c = ',' then [] :: p :: ps else (c :: p) :: ps

def trimBlanks (cs : List Char) : List Char :=
  ((cs.dropWhile fun c => c = ' ').reverse.dropWhile fun c => c = ' ').reverse

def isNameChar (c : Char) : Bool := c.isAlphanum || c = '_' || c = '-'

/-- The name after `#` or `.`: a letter or `_` followed by name characters is read;
no name character, or a digit, at the head makes the text no selector; the
remaining forms (a leading `-`, a compound such as `a.b`, a combinator) are
outside the model. -/
def parseName (cs : List Char) : Parse String :=
  match cs with
  | [] => .invalid
  | c :: rest =>
    if c.isDigit || !isNameChar c then .invalid
    else if c = '-' then .unmodelled
    else if rest.all isNameChar then .ok (String.mk (c :: rest))
    else .unmodelled

/-- One comma-separated piece of selector text, blanks trimmed; `none` is the
empty piece. -/
def parsePiece (cs : List Char) : Parse (Option Simple) :=
  match trimBlanks cs with
  | [] => .ok none
  | '#' :: r =>
    match parseName r with
    | .ok n => .ok (some (.id n))
    | .invalid => .invalid
    | .unmodelled => .unmodelled
  | '.' :: r =>
    match parseName r with
    | .ok n => .ok (some (.cls n))
    | .invalid => .invalid
    | .unmodelled => .unmodelled
  | _ => .unmodelled

/-- The pieces of a selector list whose last piece is followed by
` input[type="file"]`: an empty piece before the last one is no selector. -/
def assemble : List (Option Simple) → Parse (List Complex)
  | [] => .invalid
  | [none] => .ok [.fileInput]
  | [some s] => .ok [.fileInputIn s]
  | none :: _ => .invalid
  | some s :: rest =>
    match assemble rest with
    | .ok cs => .ok (.element s :: cs)
    | .invalid => .invalid
    | .unmodelled => .unmodelled

def collect : List (Parse (Option Simple)) → Parse (List (Option Simple))
  | [] => .ok []
  | p :: ps =>
    match p, collect ps with
    | .invalid, _ => .invalid
    | _, .invalid => .invalid
    | .unmodelled, _ => .unmodelled
    | _, .unmodelled => .unmodelled
    | .ok v, .ok vs => .ok (v :: vs)

/-- The selector ``#${tabName} input[type="file"]`` as the browser reads it.  The
model covers text made of letters, digits, `_`, `-`, `.`, `#`, `,` and blanks,
split at its commas into pieces that are each one simple selector; brackets,
quotes, escapes and other characters are outside the model. -/
def parseSelector (tabName : String) : Parse (List Complex) :=
  let text := '#' :: tabName.toList
  if text.all fun c => isNameChar c || c = '.' || c = '#' || c = ',' || c = ' ' then
    match collect ((splitCommas text).map parsePiece) with
    | .ok pieces => assemble pieces
    | .invalid => .invalid
    | .unmodelled => .unmodelled
  else .unmodelled

/-- Whether a tab panel matches a simple selector (ids and classes compare
exactly, as in a standards-mode document). -/
def Simple.selects (s : Simple) (p : Panel) : Bool :=
  match s with
  | .id n => p.id = n
  | .cls n => n = "tab-content" || (n = "active" && p.active)

def Complex.selectsPanel (c : Complex) (p : Panel) : Bool :=
  match c with
  | .element s => s.selects p
  | _ => false

def Complex.selectsInputOf (c : Complex) (p : Panel) : Bool :=
  match c with
  | .element _ => false
  | .fileInputIn s => s.selects p
  | .fileInput => true

/-- The effect of `document.querySelector(sel).name = 'file'`: the first element
in document order that matches one of the complex selectors gets the name; a
panel that matches is not a file input, and no file input changes; `none` when
nothing matches. -/
def nameFirstMatch (sel : List Complex) : List Panel → Option (List Panel)
  | [] => none
  | p :: ps =>
    if sel.any fun c => c.selectsPanel p then some (p :: ps)
    else
      match p.inputs with
      | i :: is =>
        if sel.any fun c => c.selectsInputOf p then
          some ({ p with inputs := { i with name := "file" } :: is } :: ps)
        else (nameFirstMatch sel ps).map fun qs => p :: qs
      | [] => (nameFirstMatch sel ps).map fun qs => p :: qs

/-- How a call of `openTab` ends: it returns, it throws (the page is left as it
was at the throw), or it leaves the modelled part of the selector grammar. -/
inductive Outcome where
  | completed (page : Page)
  | thrown (page : Page)
  | unmodelled
  deriving DecidableEq, Repr

def openTab (page : Page) (evt : TabEvent) (tabName : String) : Outcome :=
  let panels := page.panels.map fun p => { p with active := false }
  let links := page.links.map fun _ => false
  match activateById tabName panels with
  | none => .thrown { panels := panels, links := links }
  | some panels =>
    match evt.currentTarget with
    | none => .thrown { panels := panels, links := links }
    | some k =>
      let links := links.set k true
      let panels := clearNames panels
      match parseSelector tabName with
      | .unmodelled => .unmodelled
      | .invalid => .thrown { panels := panels, links := links }
      | .ok sel =>
        match nameFirstMatch sel panels with
        | none => .thrown { panels := panels, links := links }
        | some panels => .completed { panels := panels, links := links }

/-- The ids of the panels that carry the class `active`. -/
def activePanels (page : Page) : List String :=
  (page.panels.filter fun p => p.active).map fun p => p.id

/-- The ids of the panels that hold a file input named `file`. -/
def namedPanels (page : Page) : List String :=
  (page.panels.filter fun p => p.inputs.any fun i => i.name == "file").map fun p => p.id

/-- All file inputs below tab panels, in document order. -/
def fileInputs (page : Page) : List FileInput := page.panels.flatMap fun p => p.inputs

/-- The input carries the field name under which the form submits its file. -/
def FileInput.isSubmitted (i : FileInput) : Bool := i.name == "file"

/-! ## Outcomes and sample data used in statements -/

/-- The outcome of a rejected submission carrying the message `text`: the status
text is the error label followed by `text`, the submit button is enabled again
with its original label, and no progress stream was opened. -/
def FailedWith (css : WidthParser) (ui : UI) (trace : List Action) (text : String) : Prop :=
  (run css ui trace).statusText = errorLabel ++ text ∧
  (run css ui trace).submitDisabled = false ∧
  (run css ui trace).submitLabel = startLabel ∧
  streamsOpened trace = []

instance (css : WidthParser) (ui : UI) (trace : List Action) (text : String) :
    Decidable (FailedWith css ui trace text) := by
  unfold FailedWith
  infer_instance

/-- The value sent under the field name `file_type`. -/
def fileTypeOf (body : FormData) : Option FormValue := body.lookup "file_type"

/-- A CSS number without sign at the head of the text: digits with an optional
fraction and an optional exponent.  Yields the rest of the text. -/
def cssNumber (cs : List Char) : Option (List Char) :=
  let (whole, r1) := cs.span Char.isDigit
  let mantissa : Option (List Char) :=
    match r1 with
    | '.' :: r =>
      let (frac, r2) := r.span Char.isDigit
      if frac.isEmpty then (if whole.isEmpty then none else some r1) else some r2
    | _ => if whole.isEmpty then none else some r1
  mantissa.map fun r =>
    match r with
    | e :: t =>
      if e = 'e' ∨ e = 'E' then
        let t1 := match t with
          | '+' :: u => u
          | '-' :: u => u
          | _ => t
        let (ex, r3) := t1.span Char.isDigit
        if ex.isEmpty then r else r3
      else r
    | [] => r

/-- A width parser for the examples: it accepts the non-negative percentages, a
CSS number without a minus sign followed by `%`, and nothing else. -/
def percentParser : WidthParser := fun w =>
  let cs := match w.toList with
    | '+' :: r => r
    | cs => cs
  cssNumber cs = some ['%']

/-- The idle page before any submission. -/
def idleUI : UI :=
  { submitDisabled := false, submitLabel := startLabel, progressHidden := true,
    barWidth := "0%", statusText := "", downloadHidden := true, downloadHref := "" }

def docFile : File := { name := "doc.pdf" }

def docsPanel : Panel :=
  { id := "docs", active := true, inputs := [{ name := "file", files := [docFile] }] }

def subsPanel : Panel :=
  { id := "subs", active := false, inputs := [{ name := "", files := [] }] }

/-- The documents tab is active and holds `doc.pdf`. -/
def docsPage : Page := { panels := [docsPanel, subsPanel], links := [true, false] }

/-- A panel whose id is `x,.tab-content`, with an unnamed, empty file input. -/
def commaPanel : Panel :=
  { id := "x,.tab-content", active := false, inputs := [{ name := "", files := [] }] }

/-- The documents panel, active, followed by `commaPanel`. -/
def commaPage : Page := { panels := [docsPanel, commaPanel], links := [true, false] }

/-- The page `commaPage` after `openTab(evt, "x,.tab-content")` from the second tab
link. -/
def commaPageOpened : Page :=
  { panels := [{ docsPanel with active := false }, { commaPanel with active := true }],
    links := [false, true] }

/-- A panel whose id is `1tab`, with an unnamed, empty file input. -/
def digitPanel : Panel :=
  { id := "1tab", active := false, inputs := [{ name := "", files := [] }] }

/-- The page `[docsPanel, digitPanel]` at the moment `openTab(evt, "1tab")` throws:
the panel is activated and every name is cleared. -/
def digitPageThrown : Page :=
  { panels := [{ id := "docs", active := false, inputs := [{ name := "", files := [docFile] }] },
      { digitPanel with active := true }],
    links := [false, true] }

def srtFile : File := { name := "movie.srt" }

/-- The subtitles tab is active and holds `movie.srt`; the documents tab before
it is inactive and still holds `doc.pdf`. -/
def subtitlesPage : Page :=
  { panels := [{ docsPanel with active := false },
      { id := "subs", active := true, inputs := [{ name := "file", files := [srtFile] }] }],
    links := [false, true] }

/-- The documents tab is active and its file input is empty. -/
def blankPage : Page :=
  { panels := [{ docsPanel with inputs := [{ name := "file", files := [] }] }, subsPanel],
    links := [true, false] }

/-- The page `docsPage` after the subtitles tab was opened from the second tab link. -/
def subsPage : Page :=
  { panels := [{ id := "docs", active := false, inputs := [{ name := "", files := [docFile] }] },
      { id := "subs", active := true, inputs := [{ name := "file", files := [] }] }],
    links := [false, true] }

/-- The payload `{progress: p, message: m, status: s}`. -/
def progressEvent (p : Nat) (m s : String) : ProgressEvent :=
  { progress := .num (.ofNat p), message := .str m, status := .str s, download_url := .undefined }

/-- The payload `{progress: -5, message: "oops", status: "running"}`. -/
def negativeEvent : ProgressEvent :=
  { progress := .num (.finite true 5 0), message := .str "oops", status := .str "running",
    download_url := .undefined }

/-- The payload `{status: "running"}`. -/
def bareEvent : ProgressEvent :=
  { progress := .undefined, message := .undefined, status := .str "running",
    download_url := .undefined }

def halfwayEvent : ProgressEvent :=
  { progress := .num (.ofNat 50), message := .str "halfway", status := .str "running",
    download_url := .undefined }

def doneEvent : ProgressEvent :=
  { progress := .num (.ofNat 100), message := .str "done", status := .str "completed",
    download_url := .str "/dl/t1" }

def sampleControls : Controls :=
  { geminiKey := "g-key", deepseekKey := "d-key", proxy := "", aiProvider := "gemini",
    style := "formal", targetLang := "fa" }

/-- The scenario of the specification: `doc.pdf` is submitted, the server answers
with task id `t1`, and the stream delivers `halfwayEvent` and then `doneEvent`. -/
def scenarioTrace : List Action :=
  submitHandler docsPage sampleControls (.response true (.record .undefined (.str "t1")))
    ([.message (.record halfwayEvent)] ++ [.message (.record doneEvent)])

/-! ## Settings store: theorems -/

theorem getItemOr_setItem_same (st : Storage) (key value dflt : String) :
    getItemOr (st.setItem key value) key dflt = if value = "" then dflt else value := by
  by_cases h : value = "" <;> simp [getItemOr, Storage.getItem, Storage.setItem, h]

theorem getItemOr_setItem_other (st : Storage) (key other value dflt : String)
    (h : key ≠ other) :
    getItemOr (st.setItem other value) key dflt = getItemOr st key dflt := by
  simp [getItemOr, Storage.getItem, Storage.setItem, h]

theorem getItemOr_empty_default (st : Storage) (key : String) :
    getItemOr st key "" = (st key).getD "" := by
  unfold getItemOr Storage.getItem
  cases h : st key with
  | none => rfl
  | some v => by_cases hv : v = "" <;> simp [hv]

/-- C9. Settings round-trip: for every record held by the controls whose provider
identifier is a non-empty string, every prior storage content and every state of
the controls of a freshly loaded page, `saveSettings` followed by `loadSettings`
puts the four saved values back into the four controls. -/
theorem saveSettings_loadSettings_roundtrip (c fresh : Controls) (st : Storage)
    (hp : c.aiProvider ≠ "") :
    (loadSettings (saveSettings c st) fresh).geminiKey = c.geminiKey ∧
    (loadSettings (saveSettings c st) fresh).deepseekKey = c.deepseekKey ∧
    (loadSettings (saveSettings c st) fresh).proxy = c.proxy ∧
    (loadSettings (saveSettings c st) fresh).aiProvider = c.aiProvider := by
  refine ⟨?_, ?_, ?_, ?_⟩
  · show getItemOr (saveSettings c st) "geminiApiKey" "" = _
    unfold saveSettings
    rw [getItemOr_setItem_other _ _ _ _ _ (by decide),
      getItemOr_setItem_other _ _ _ _ _ (by decide),
      getItemOr_setItem_other _ _ _ _ _ (by decide), getItemOr_setItem_same]
    split <;> simp_all
  · show getItemOr (saveSettings c st) "deepseekApiKey" "" = _
    unfold saveSettings
    rw [getItemOr_setItem_other _ _ _ _ _ (by decide),
      getItemOr_setItem_other _ _ _ _ _ (by decide), getItemOr_setItem_same]
    split <;> simp_all
  · show getItemOr (saveSettings c st) "proxyUrl" "" = _
    unfold saveSettings
    rw [getItemOr_setItem_other _ _ _ _ _ (by decide), getItemOr_setItem_same]
    split <;> simp_all
  · show getItemOr (saveSettings c st) "aiProvider" "gemini" = _
    unfold saveSettings
    rw [getItemOr_setItem_same, if_neg hp]

/-- Witness of C9: keys and proxy saved over a storage that held another provider,
then loaded into the blank controls of a fresh page. -/
theorem saveSettings_loadSettings_roundtrip_witness :
    sampleControls.aiProvider ≠ "" ∧
    (loadSettings (saveSettings sampleControls (Storage.empty.setItem "aiProvider" "deepseek"))
      ⟨"", "", "", "", "", ""⟩).geminiKey = "g-key" ∧
    (loadSettings (saveSettings sampleControls (Storage.empty.setItem "aiProvider" "deepseek"))
      ⟨"", "", "", "", "", ""⟩).deepseekKey = "d-key" ∧
    (loadSettings (saveSettings sampleControls (Storage.empty.setItem "aiProvider" "deepseek"))
      ⟨"", "", "", "", "", ""⟩).proxy = "" ∧
    (loadSettings (saveSettings sampleControls (Storage.empty.setItem "aiProvider" "deepseek"))
      ⟨"", "", "", "", "", ""⟩).aiProvider = "gemini" :=
  ⟨by decide,
    saveSettings_loadSettings_roundtrip sampleControls ⟨"", "", "", "", "", ""⟩
      (Storage.empty.setItem "aiProvider" "deepseek") (by decide)⟩

/-- C10, as amended. On empty storage `loadSettings` yields the empty string for
both keys and the proxy URL and the provider `gemini`; for every storage content
each field is decided by its own key alone: a missing key gives the default, a
present key gives the stored value, except that an empty stored provider gives
`gemini`. -/
theorem loadSettings_defaults (st : Storage) (c : Controls) :
    (loadSettings Storage.empty c).geminiKey = "" ∧
    (loadSettings Storage.empty c).deepseekKey = "" ∧
    (loadSettings Storage.empty c).proxy = "" ∧
    (loadSettings Storage.empty c).aiProvider = "gemini" ∧
    (loadSettings st c).geminiKey = (st.getItem "geminiApiKey").getD "" ∧
    (loadSettings st c).deepseekKey = (st.getItem "deepseekApiKey").getD "" ∧
    (loadSettings st c).proxy = (st.getItem "proxyUrl").getD "" ∧
    (loadSettings st c).aiProvider =
      (match st.getItem "aiProvider" with
        | none => "gemini"
        | some v => if v = "" then "gemini" else v) := by
  refine ⟨rfl, rfl, rfl, rfl, ?_, ?_, ?_, ?_⟩
  · exact getItemOr_empty_default st _
  · exact getItemOr_empty_default st _
  · exact getItemOr_empty_default st _
  · show getItemOr st "aiProvider" "gemini" = _
    unfold getItemOr
    cases h : st.getItem "aiProvider" with
    | none => rfl
    | some v => by_cases hv : v = "" <;> simp [hv]

/-- Counterexample to C10 as stated: the key `aiProvider` is present with the
empty string stored, and the provider control is loaded with `gemini`, not with
the stored value. -/
theorem loadSettings_present_empty_provider :
    (Storage.empty.setItem "aiProvider" "").getItem "aiProvider" = some "" ∧
    (loadSettings (Storage.empty.setItem "aiProvider" "") ⟨"", "", "", "", "", ""⟩).aiProvider
      = "gemini" ∧
    (loadSettings (Storage.empty.setItem "aiProvider" "") ⟨"", "", "", "", "", ""⟩).aiProvider
      ≠ "" := by
  refine ⟨by decide, by decide, by decide⟩

/-! ## Traces: general lemmas -/

theorem run_append (css : WidthParser) (ui : UI) (a b : List Action) : run css ui (a ++ b) = run css (run css ui a) b := by
  simp [run, List.foldl_append]

theorem streamsOpened_append (a b : List Action) :
    streamsOpened (a ++ b) = streamsOpened a ++ streamsOpened b := by
  simp [streamsOpened, List.filterMap_append]

theorem requests_append (a b : List Action) : requests (a ++ b) = requests a ++ requests b := by
  simp [requests, List.filterMap_append]

theorem requests_onmessage (p : Parsed) : requests (onmessage p) = [] := by
  cases p with
  | failure => rfl
  | record d =>
    simp only [onmessage]
    split_ifs <;> rfl

theorem requests_handle (i : StreamInput) : requests i.handle = [] := by
  cases i with
  | message p => exact requests_onmessage p
  | error => rfl

theorem requests_session (stream : List StreamInput) : requests (session stream) = [] := by
  induction stream with
  | nil => rfl
  | cons i rest ih =>
    unfold session
    split_ifs
    · rw [requests_append, requests_handle, ih]; rfl
    · exact requests_handle i

theorem requests_tryBlock (net : FetchOutcome) (stream : List StreamInput) (acts : List Action)
    (h : tryBlock net stream = .ok acts) : requests acts = [] := by
  unfold tryBlock at h
  split at h <;> simp at h
  subst h
  exact requests_session stream

theorem selectedFile_of_file (page : Page) (tab : Panel) (input : FileInput) (file : File)
    (ht : activeTab page = some tab) (hi : tab.inputs.head? = some input)
    (hf : input.files.head? = some file) : selectedFile page = some (some (tab, file)) := by
  simp [selectedFile, ht, hi, hf]

theorem selectedFile_of_blank (page : Page) (tab : Panel) (input : FileInput)
    (ht : activeTab page = some tab) (hi : tab.inputs.head? = some input)
    (hf : input.files = []) : selectedFile page = some none := by
  simp [selectedFile, ht, hi, hf]

/-! ## Submission flow: theorems -/

/-- C6. No-file guard: when the file input of the active tab holds no file, the
submit handler only prevents the default action and shows the alert; it issues no
request, opens no stream, and the displayed state (button, progress area, bar,
status text, download link) is exactly the state before, whatever that state, the
settings, and the behaviour of the network are. -/
theorem submitHandler_no_file (css : WidthParser) (ui : UI) (page : Page) (c : Controls) (net : FetchOutcome)
    (stream : List StreamInput) (tab : Panel) (input : FileInput)
    (ht : activeTab page = some tab) (hi : tab.inputs.head? = some input)
    (hf : input.files = []) :
    submitHandler page c net stream = [.preventDefault, .alert noFileMsg] ∧
    requests (submitHandler page c net stream) = [] ∧
    streamsOpened (submitHandler page c net stream) = [] ∧
    (∀ a ∈ submitHandler page c net stream, a.isNetwork = false) ∧
    run css ui (submitHandler page c net stream) = ui := by
  have h : submitHandler page c net stream = [.preventDefault, .alert noFileMsg] := by
    simp [submitHandler, selectedFile_of_blank page tab input ht hi hf]
  rw [h]
  refine ⟨rfl, rfl, rfl, ?_, rfl⟩
  intro a ha
  simp at ha
  rcases ha with rfl | rfl <;> rfl

/-- Witness of C6: a submit on the page whose active documents tab has an empty
file input, while the button is enabled. -/
theorem submitHandler_no_file_witness :
    idleUI.submitDisabled = false ∧
    run percentParser idleUI (submitHandler blankPage sampleControls (.rejected "offline") []) = idleUI :=
  ⟨rfl, (submitHandler_no_file percentParser idleUI blankPage sampleControls (.rejected "offline") []
    { docsPanel with inputs := [{ name := "file", files := [] }] } { name := "file", files := [] }
    (by decide) (by decide) rfl).2.2.2.2⟩

/-- The first panel carrying the class `active` is the one the handler works on. -/
theorem activeTab_of_split (page : Page) (before : List Panel) (tab : Panel)
    (after : List Panel) (hp : page.panels = before ++ tab :: after)
    (hb : ∀ p ∈ before, p.active = false) (ha : tab.active = true) :
    activeTab page = some tab := by
  unfold activeTab
  rw [hp]
  clear hp
  induction before with
  | nil => simp [List.find?, ha]
  | cons q qs ih =>
    have hq : q.active = false := hb q (List.mem_cons_self _ _)
    simp only [List.cons_append, List.find?, hq]
    exact ih fun p hp => hb p (List.mem_cons_of_mem _ hp)

/-- C8. Request assembly: for every submission with a file selected (the active
tab is the first panel carrying the class `active`, the file is the first file
of its first file input) exactly one request is issued, a POST to `/translate`,
whose body carries the eight fields `file`, `gemini_key`, `deepseek_key`,
`proxy_url`, `ai_provider`, `style`, `target_lang`, `file_type`, holding that
file and the values of the corresponding controls (both keys, whatever the
provider); `file_type` is `document` when the active tab has id `docs` and
`subtitle` otherwise. -/
theorem submitHandler_request (page : Page) (c : Controls) (net : FetchOutcome)
    (stream : List StreamInput) (before : List Panel) (tab : Panel) (after : List Panel)
    (input : FileInput) (inputs : List FileInput) (file : File) (files : List File)
    (hp : page.panels = before ++ tab :: after) (hb : ∀ p ∈ before, p.active = false)
    (ha : tab.active = true) (hi : tab.inputs = input :: inputs)
    (hf : input.files = file :: files) :
    requests (submitHandler page c net stream) =
      [("/translate", "POST",
        [("file", .file file), ("gemini_key", .text c.geminiKey),
         ("deepseek_key", .text c.deepseekKey), ("proxy_url", .text c.proxy),
         ("ai_provider", .text c.aiProvider), ("style", .text c.style),
         ("target_lang", .text c.targetLang),
         ("file_type", .text (if tab.id = "docs" then "document" else "subtitle"))])] ∧
    (formData tab file c).map Prod.fst =
      ["file", "gemini_key", "deepseek_key", "proxy_url", "ai_provider", "style",
       "target_lang", "file_type"] ∧
    (fileTypeOf (formData tab file c) = some (.text "document") ∨
      fileTypeOf (formData tab file c) = some (.text "subtitle")) ∧
    (tab.id = "docs" → fileTypeOf (formData tab file c) = some (.text "document")) ∧
    (tab.id ≠ "docs" → fileTypeOf (formData tab file c) = some (.text "subtitle")) := by
  have ht := activeTab_of_split page before tab after hp hb ha
  have hi' : tab.inputs.head? = some input := by rw [hi]; rfl
  have hf' : input.files.head? = some file := by rw [hf]; rfl
  have hft : fileTypeOf (formData tab file c)
      = some (.text (if tab.id = "docs" then "document" else "subtitle")) := by
    simp [fileTypeOf, formData, List.lookup]
  refine ⟨?_, rfl, ?_, ?_, ?_⟩
  · show requests (submitHandler page c net stream) = [("/translate", "POST", formData tab file c)]
    simp only [submitHandler, selectedFile_of_file page tab input file ht hi' hf']
    cases h : tryBlock net stream with
    | ok acts =>
      have := requests_tryBlock net stream acts h
      simp [requests, List.filterMap_cons, List.filterMap_append] at this ⊢
      exact this
    | error msg => simp [requests, List.filterMap_cons]
  · rw [hft]; by_cases h : tab.id = "docs" <;> simp [h]
  · intro h; rw [hft]; simp [h]
  · intro h; rw [hft]; simp [h]

/-- Witness of C8: the subtitles tab is active, behind an inactive documents tab
that holds `doc.pdf`; the request carries `movie.srt` and `subtitle`, and the
deepseek key although the provider is `gemini`. -/
theorem submitHandler_request_witness :
    requests (submitHandler subtitlesPage sampleControls (.rejected "offline") []) =
      [("/translate", "POST",
        [("file", .file srtFile), ("gemini_key", .text "g-key"), ("deepseek_key", .text "d-key"),
         ("proxy_url", .text ""), ("ai_provider", .text "gemini"), ("style", .text "formal"),
         ("target_lang", .text "fa"), ("file_type", .text "subtitle")])] :=
  (submitHandler_request subtitlesPage sampleControls (.rejected "offline") []
    [{ docsPanel with active := false }]
    { id := "subs", active := true, inputs := [{ name := "file", files := [srtFile] }] } []
    { name := "file", files := [srtFile] } [] srtFile [] rfl (by decide) rfl rfl rfl).1

/-- The submit handler on a response that makes the `try` block throw. -/
theorem submitHandler_of_error (css : WidthParser) (ui : UI) (page : Page) (c : Controls) (net : FetchOutcome)
    (stream : List StreamInput) (tab : Panel) (input : FileInput) (file : File)
    (ht : activeTab page = some tab) (hi : tab.inputs.head? = some input)
    (hf : input.files.head? = some file) (msg : String)
    (hnet : tryBlock net stream = .error msg) :
    FailedWith css ui (submitHandler page c net stream) msg := by
  simp [FailedWith, submitHandler, selectedFile_of_file page tab input file ht hi hf, hnet, run,
    Action.apply, streamsOpened]

/-- C4, as amended. Submission rejection: for every submission with a file
selected, if POST `/translate` answers with a non-success status and a JSON body
whose `error` member is a non-empty string `m`, the status text is the error label
followed by `m`, the submit button is enabled again with its original label, and
no progress stream is opened; when the `error` member is the empty string the
same holds with the generic fallback message in place of `m`. -/
theorem submitHandler_rejection (css : WidthParser) (ui : UI) (page : Page) (c : Controls)
    (stream : List StreamInput) (tab : Panel) (input : FileInput) (file : File)
    (ht : activeTab page = some tab) (hi : tab.inputs.head? = some input)
    (hf : input.files.head? = some file) (m : String) (taskId : JsVal) (hm : m ≠ "") :
    FailedWith css ui (submitHandler page c (.response false (.record (.str m) taskId)) stream) m ∧
    FailedWith css ui (submitHandler page c (.response false (.record (.str "") taskId)) stream)
      fallbackMsg := by
  constructor
  · apply submitHandler_of_error css ui page c _ stream tab input file ht hi hf
    simp [tryBlock, JsVal.orElse, JsVal.truthy, JsVal.toStr, hm]
  · apply submitHandler_of_error css ui page c _ stream tab input file ht hi hf
    simp [tryBlock, JsVal.orElse, JsVal.truthy, JsVal.toStr]

/-- Witness of C4: HTTP 400 with the body `{error: "invalid key"}`. -/
theorem submitHandler_rejection_witness :
    ("invalid key" : String) ≠ "" ∧
    FailedWith percentParser idleUI
      (submitHandler docsPage sampleControls
        (.response false (.record (.str "invalid key") .undefined)) [])
      "invalid key" :=
  ⟨by decide,
    (submitHandler_rejection percentParser idleUI docsPage sampleControls [] docsPanel
      { name := "file", files := [docFile] } docFile (by decide) (by decide) (by decide)
      "invalid key" .undefined (by decide)).1⟩

/-- Counterexample to C4 as stated: a non-success response with the JSON body
`{error: ""}` shows the error label followed by the fallback message, not the
label followed by the (empty) message of the body. -/
theorem submitHandler_rejection_empty_message :
    (run percentParser idleUI (submitHandler docsPage sampleControls
      (.response false (.record (.str "") .undefined)) [])).statusText
      = errorLabel ++ fallbackMsg ∧
    ¬ FailedWith percentParser idleUI
      (submitHandler docsPage sampleControls (.response false (.record (.str "") .undefined)) [])
      "" := by
  refine ⟨by decide, by decide⟩

/-- C5, as amended. For every submission with a file selected: when the body of
the response cannot be read as JSON, under a success or a non-success status, the
submission fails with the message of the exception raised by the parser (status
text is the error label followed by that message, button enabled again with its
original label, no stream opened); when a non-success response has a JSON body
whose `error` member is absent or falsy, it fails in the same way with the
generic fallback message. -/
theorem submitHandler_malformed (css : WidthParser) (ui : UI) (page : Page) (c : Controls)
    (stream : List StreamInput) (tab : Panel) (input : FileInput) (file : File)
    (ht : activeTab page = some tab) (hi : tab.inputs.head? = some input)
    (hf : input.files.head? = some file) (ok : Bool) (msg : String) (err taskId : JsVal)
    (herr : err.truthy = false) :
    FailedWith css ui (submitHandler page c (.response ok (.failure msg)) stream) msg ∧
    FailedWith css ui (submitHandler page c (.response false (.record err taskId)) stream)
      fallbackMsg := by
  constructor
  · apply submitHandler_of_error css ui page c _ stream tab input file ht hi hf
    cases ok <;> rfl
  · apply submitHandler_of_error css ui page c _ stream tab input file ht hi hf
    simp [tryBlock, JsVal.orElse, herr, JsVal.toStr]

/-- Witness of C5: a non-success response whose body `{}` has no `error` member. -/
theorem submitHandler_malformed_witness :
    JsVal.undefined.truthy = false ∧
    FailedWith percentParser idleUI
      (submitHandler docsPage sampleControls (.response false (.record .undefined .undefined)) [])
      fallbackMsg :=
  ⟨rfl,
    (submitHandler_malformed percentParser idleUI docsPage sampleControls [] docsPanel
      { name := "file", files := [docFile] } docFile (by decide) (by decide) (by decide)
      false "" .undefined .undefined rfl).2⟩

/-- Counterexample to C5 as stated: a non-success response whose body is not JSON
shows the parser's message instead of the generic fallback message; and a success
response whose JSON body `{}` has no `task_id` opens the stream
`/progress/undefined` and leaves the submit button disabled. -/
theorem submitHandler_malformed_not_generic :
    ¬ FailedWith percentParser idleUI
      (submitHandler docsPage sampleControls
        (.response false (.failure "Unexpected token < in JSON at position 0")) [])
      fallbackMsg ∧
    (run percentParser idleUI (submitHandler docsPage sampleControls
        (.response false (.failure "Unexpected token < in JSON at position 0")) [])).statusText
      = errorLabel ++ "Unexpected token < in JSON at position 0" ∧
    streamsOpened
      (submitHandler docsPage sampleControls (.response true (.record .undefined .undefined)) [])
      = ["/progress/undefined"] ∧
    (run percentParser idleUI (submitHandler docsPage sampleControls
        (.response true (.record .undefined .undefined)) [])).submitDisabled = true ∧
    ¬ FailedWith percentParser idleUI
      (submitHandler docsPage sampleControls (.response true (.record .undefined .undefined)) [])
      fallbackMsg := by
  refine ⟨by decide, by decide, by decide, by decide, by decide⟩

/-! ## Progress monitor: theorems -/

/-- Renderings of numbers: a fraction, a negative value, and both sides of the
switch to exponent notation. -/
theorem toStr_examples :
    (JsNum.finite false 125 (-1)).toStr = "12.5" ∧
    (JsNum.finite true 5 0).toStr = "-5" ∧
    (JsNum.finite false 1 20).toStr = "100000000000000000000" ∧
    (JsNum.finite false 1 21).toStr = "1e+21" ∧
    (JsNum.finite false 1 (-6)).toStr = "0.000001" ∧
    (JsNum.finite false 1 (-7)).toStr = "1e-7" ∧
    (JsNum.finite false 1200 (-2)).toStr = "12" := by
  refine ⟨by decide, by decide, by decide, by decide, by decide, by decide, by decide⟩

theorem handleAll_append (es fs : List ProgressEvent) :
    handleAll (es ++ fs) = handleAll es ++ handleAll fs := by
  simp [handleAll, List.flatMap_append]

theorem handleAll_singleton (e : ProgressEvent) : handleAll [e] = onmessage (.record e) := by
  simp [handleAll, List.flatMap]

theorem onmessage_barWidth (css : WidthParser) (ui : UI) (e : ProgressEvent) :
    (run css ui (onmessage (.record e))).barWidth =
      if css (e.progress.toStr ++ "%") then e.progress.toStr ++ "%" else ui.barWidth := by
  simp only [onmessage]
  split_ifs <;> simp_all [run, Action.apply]

theorem onmessage_statusText (css : WidthParser) (ui : UI) (e : ProgressEvent)
    (h1 : e.status ≠ .str "completed") (h2 : e.status ≠ .str "error") :
    (run css ui (onmessage (.record e))).statusText = e.message.toTextContent := by
  simp [onmessage, h1, h2, run, Action.apply]

/-- C3, as amended. Last-event-wins progress display: after any sequence of
progress events has been handled from any prior state, if the browser accepts
the progress value of the last event followed by `%` as a width, the bar width is
exactly that text, whatever came before and whatever the status of the event; if
the browser does not accept it, the bar keeps the width it had before that event;
and when the status of the last event is neither `completed` nor `error` the
status text is the message of that event: the string itself for a string, the
empty text for an absent or null message. -/
theorem onmessage_last_event_wins (css : WidthParser) (ui : UI) (es : List ProgressEvent)
    (e : ProgressEvent) :
    (css (e.progress.toStr ++ "%") = true →
      (run css ui (handleAll (es ++ [e]))).barWidth = e.progress.toStr ++ "%") ∧
    (css (e.progress.toStr ++ "%") = false →
      (run css ui (handleAll (es ++ [e]))).barWidth = (run css ui (handleAll es)).barWidth) ∧
    (e.status ≠ .str "completed" → e.status ≠ .str "error" →
      (run css ui (handleAll (es ++ [e]))).statusText = e.message.toTextContent ∧
      (∀ m, e.message = .str m → (run css ui (handleAll (es ++ [e]))).statusText = m) ∧
      (e.message = .undefined ∨ e.message = .null →
        (run css ui (handleAll (es ++ [e]))).statusText = "")) := by
  rw [handleAll_append, handleAll_singleton, run_append]
  refine ⟨fun h => ?_, fun h => ?_, fun h1 h2 => ?_⟩
  · rw [onmessage_barWidth, if_pos h]
  · rw [onmessage_barWidth, h]
    rfl
  · have h := onmessage_statusText css (run css ui (handleAll es)) e h1 h2
    refine ⟨h, fun m hm => ?_, fun hm => ?_⟩
    · rw [h, hm]
      rfl
    · rw [h]
      rcases hm with hm | hm <;> rw [hm] <;> rfl

/-- Witness of C3: the progress values 10, 45, 80 and 100 (completed) give the
widths 10%, 45%, 80% and 100% in turn, and a running event shows its message. -/
theorem onmessage_last_event_wins_witness :
    (run percentParser idleUI (handleAll ([] ++ [progressEvent 10 "a" "running"]))).barWidth
      = "10%" ∧
    (run percentParser idleUI (handleAll ([progressEvent 10 "a" "running"] ++
      [progressEvent 45 "b" "running"]))).barWidth = "45%" ∧
    (run percentParser idleUI (handleAll ([progressEvent 10 "a" "running",
      progressEvent 45 "b" "running"] ++ [progressEvent 80 "c" "running"]))).barWidth = "80%" ∧
    (run percentParser idleUI (handleAll ([progressEvent 10 "a" "running",
      progressEvent 45 "b" "running"] ++ [progressEvent 80 "c" "running"]))).statusText = "c" ∧
    (run percentParser idleUI (handleAll ([progressEvent 10 "a" "running",
      progressEvent 45 "b" "running", progressEvent 80 "c" "running"] ++
      [doneEvent]))).barWidth = "100%" :=
  ⟨(onmessage_last_event_wins percentParser idleUI [] (progressEvent 10 "a" "running")).1
      (by decide),
   (onmessage_last_event_wins percentParser idleUI [progressEvent 10 "a" "running"]
      (progressEvent 45 "b" "running")).1 (by decide),
   (onmessage_last_event_wins percentParser idleUI
      [progressEvent 10 "a" "running", progressEvent 45 "b" "running"]
      (progressEvent 80 "c" "running")).1 (by decide),
   ((onmessage_last_event_wins percentParser idleUI
      [progressEvent 10 "a" "running", progressEvent 45 "b" "running"]
      (progressEvent 80 "c" "running")).2.2 (by decide) (by decide)).2.1 "c" rfl,
   (onmessage_last_event_wins percentParser idleUI
      [progressEvent 10 "a" "running", progressEvent 45 "b" "running",
        progressEvent 80 "c" "running"] doneEvent).1 (by decide)⟩

/-- Counterexample to C3 as stated: after a running event with progress 10, a
running event with progress -5 asks for the width `-5%`, which is not a width,
and the bar stays at `10%`; an event without a `progress` member asks for
`undefined%` and the bar stays at `10%` as well, while its absent message blanks
the status text. -/
theorem onmessage_invalid_width_kept :
    negativeEvent.progress.toStr ++ "%" = "-5%" ∧
    (run percentParser idleUI
      (handleAll ([progressEvent 10 "a" "running"] ++ [negativeEvent]))).barWidth = "10%" ∧
    (run percentParser idleUI
      (handleAll ([progressEvent 10 "a" "running"] ++ [negativeEvent]))).barWidth
      ≠ negativeEvent.progress.toStr ++ "%" ∧
    bareEvent.progress.toStr ++ "%" = "undefined%" ∧
    (run percentParser idleUI
      (handleAll ([progressEvent 10 "a" "running"] ++ [bareEvent]))).barWidth = "10%" ∧
    (run percentParser idleUI
      (handleAll ([progressEvent 10 "a" "running"] ++ [bareEvent]))).statusText = "" := by
  refine ⟨by decide, by decide, by decide, by decide, by decide, by decide⟩

theorem handle_nonterminal (j : StreamInput) (h : j.isTerminal = false) :
    j.handle = [] ∨ ∃ w t, j.handle = [.setBarWidth w, .setStatus t] := by
  cases j with
  | error => simp [StreamInput.isTerminal] at h
  | message p =>
    cases p with
    | failure => exact Or.inl rfl
    | record d =>
      simp [StreamInput.isTerminal] at h
      exact Or.inr ⟨d.progress.toStr ++ "%", d.message.toTextContent,
        by simp [StreamInput.handle, onmessage, h.1, h.2]⟩

theorem closes_nonterminal (j : StreamInput) (h : j.isTerminal = false) :
    closes j.handle = 0 := by
  rcases handle_nonterminal j h with e | ⟨w, t, e⟩ <;> rw [e] <;> simp [closes]

theorem closes_terminal (i : StreamInput) (h : i.isTerminal = true) :
    closes i.handle = 1 ∧ enables i.handle = 1 ∧ relabels i.handle = 1 := by
  cases i with
  | error => simp [StreamInput.handle, onerror, closes, enables, relabels]
  | message p =>
    cases p with
    | failure => simp [StreamInput.isTerminal] at h
    | record d =>
      simp [StreamInput.isTerminal] at h
      by_cases hc : d.status = .str "completed"
      · simp [StreamInput.handle, onmessage, hc, closes, enables, relabels]
      · have he : d.status = .str "error" := by tauto
        simp [StreamInput.handle, onmessage, he, closes, enables, relabels]

theorem run_terminal (css : WidthParser) (ui : UI) (i : StreamInput) (h : i.isTerminal = true) :
    (run css ui i.handle).submitDisabled = false ∧ (run css ui i.handle).submitLabel = startLabel := by
  cases i with
  | error => simp [StreamInput.handle, onerror, run, Action.apply]
  | message p =>
    cases p with
    | failure => simp [StreamInput.isTerminal] at h
    | record d =>
      simp [StreamInput.isTerminal] at h
      by_cases hc : d.status = .str "completed"
      · simp [StreamInput.handle, onmessage, hc, run, Action.apply]
      · have he : d.status = .str "error" := by tauto
        simp [StreamInput.handle, onmessage, he, run, Action.apply]

/-- A session runs the handlers of its non-terminal inputs and stops with the
first terminal one. -/
theorem session_until_terminal (before : List StreamInput) (i : StreamInput)
    (after : List StreamInput) (hbefore : ∀ j ∈ before, j.isTerminal = false)
    (hi : i.isTerminal = true) :
    session (before ++ i :: after) = before.flatMap StreamInput.handle ++ i.handle := by
  induction before with
  | nil =>
    have := (closes_terminal i hi).1
    simp [session, this]
  | cons j rest ih =>
    have hj := closes_nonterminal j (hbefore j (List.mem_cons_self _ _))
    have ih := ih fun k hk => hbefore k (List.mem_cons_of_mem _ hk)
    simp [session, hj, ih, List.flatMap_cons]

/-- Non-terminal inputs close nothing, enable nothing, and leave the submit
button and the download link as they were. -/
theorem nonterminal_quiet (css : WidthParser) (ui : UI) (before : List StreamInput)
    (hbefore : ∀ j ∈ before, j.isTerminal = false) :
    closes (before.flatMap StreamInput.handle) = 0 ∧
    enables (before.flatMap StreamInput.handle) = 0 ∧
    relabels (before.flatMap StreamInput.handle) = 0 ∧
    (run css ui (before.flatMap StreamInput.handle)).submitDisabled = ui.submitDisabled ∧
    (run css ui (before.flatMap StreamInput.handle)).submitLabel = ui.submitLabel ∧
    (run css ui (before.flatMap StreamInput.handle)).downloadHidden = ui.downloadHidden ∧
    (run css ui (before.flatMap StreamInput.handle)).downloadHref = ui.downloadHref := by
  induction before generalizing ui with
  | nil => simp [closes, enables, relabels, run]
  | cons j rest ih =>
    have ih := fun ui => ih ui fun k hk => hbefore k (List.mem_cons_of_mem _ hk)
    rw [List.flatMap_cons, run_append]
    rcases handle_nonterminal j (hbefore j (List.mem_cons_self _ _)) with e | ⟨w, t, e⟩
    · rw [e]
      simpa [closes, enables, relabels, run] using ih ui
    · rw [e]
      obtain ⟨h1, h2, h3, h4, h5, h6, h7⟩ := ih (run css ui [.setBarWidth w, .setStatus t])
      simp only [closes, enables, relabels] at h1 h2 h3
      refine ⟨?_, ?_, ?_, ?_, ?_, ?_, ?_⟩
      · simpa [closes] using h1
      · simpa [enables] using h2
      · simpa [relabels] using h3
      · rw [h4]; rfl
      · rw [h5]; rfl
      · rw [h6]; rfl
      · rw [h7]; rfl

/-- C2. Terminal transitions close the stream: handling a `completed` event, an
`error` event or a transport error performs exactly one stream-close action and
enables the submit control exactly once, leaving it enabled with its original
label; and over a whole session that reaches such an input after any number of
non-terminal ones, whatever the stream delivers afterwards, there is exactly one
close action and exactly one enabling of the submit control. -/
theorem terminal_closes_once (css : WidthParser) (ui : UI) (before : List StreamInput) (i : StreamInput)
    (after : List StreamInput) (hbefore : ∀ j ∈ before, j.isTerminal = false)
    (hi : i.isTerminal = true) :
    closes i.handle = 1 ∧ enables i.handle = 1 ∧ relabels i.handle = 1 ∧
    (run css ui i.handle).submitDisabled = false ∧ (run css ui i.handle).submitLabel = startLabel ∧
    closes (session (before ++ i :: after)) = 1 ∧
    enables (session (before ++ i :: after)) = 1 ∧
    relabels (session (before ++ i :: after)) = 1 ∧
    (run css ui (session (before ++ i :: after))).submitDisabled = false ∧
    (run css ui (session (before ++ i :: after))).submitLabel = startLabel := by
  obtain ⟨c1, c2, c3⟩ := closes_terminal i hi
  obtain ⟨q1, q2, q3, _⟩ := nonterminal_quiet css ui before hbefore
  rw [session_until_terminal before i after hbefore hi, run_append]
  refine ⟨c1, c2, c3, (run_terminal css ui i hi).1, (run_terminal css ui i hi).2, ?_, ?_, ?_,
    (run_terminal css _ i hi).1, (run_terminal css _ i hi).2⟩
  · simp only [closes] at q1 c1 ⊢
    rw [List.count_append, q1, c1]
  · simp only [enables] at q2 c2 ⊢
    rw [List.count_append, q2, c2]
  · simp only [relabels] at q3 c3 ⊢
    rw [List.count_append, q3, c3]

/-- Witness of C2: a running event, then a transport error, then a late
`completed` event that is never handled. -/
theorem terminal_closes_once_witness :
    closes (session ([.message (.record ⟨.num (.ofNat 50), .str "halfway", .str "running", .undefined⟩)]
      ++ .error ::
        [.message (.record ⟨.num (.ofNat 100), .str "done", .str "completed", .str "/dl/t1"⟩)])) = 1 :=
  (terminal_closes_once percentParser idleUI
    [.message (.record ⟨.num (.ofNat 50), .str "halfway", .str "running", .undefined⟩)] .error
    [.message (.record ⟨.num (.ofNat 100), .str "done", .str "completed", .str "/dl/t1"⟩)]
    (by decide) (by decide)).2.2.2.2.2.1

theorem streamsOpened_session (stream : List StreamInput) : streamsOpened (session stream) = [] := by
  induction stream with
  | nil => rfl
  | cons i rest ih =>
    have hi : streamsOpened i.handle = [] := by
      cases i with
      | error => rfl
      | message p =>
        cases p with
        | failure => rfl
        | record d =>
          simp only [StreamInput.handle, onmessage]
          split_ifs <;> rfl
    unfold session
    split_ifs
    · rw [streamsOpened_append, hi, ih]; rfl
    · exact hi

theorem run_completed (css : WidthParser) (ui : UI) (e : ProgressEvent) (u : String)
    (hs : e.status = .str "completed") (hu : e.download_url = .str u) :
    (run css ui (onmessage (.record e))).submitDisabled = false ∧
    (run css ui (onmessage (.record e))).submitLabel = startLabel ∧
    (run css ui (onmessage (.record e))).downloadHidden = false ∧
    (run css ui (onmessage (.record e))).downloadHref = u := by
  simp [onmessage, hs, hu, run, Action.apply, JsVal.toStr]

/-- C1. End-to-end success: for every submission with a file selected, every task
id returned by a successful POST `/translate`, and every stream that delivers any
number of non-terminal events and then a `completed` event with download URL `u`,
one stream is opened, for that task id, and in the final state the submit button
is enabled with its original label and the download link is visible and points
to `u` verbatim. -/
theorem success_scenario (css : WidthParser) (ui : UI) (page : Page) (c : Controls) (tab : Panel)
    (input : FileInput) (file : File) (ht : activeTab page = some tab)
    (hi : tab.inputs.head? = some input) (hf : input.files.head? = some file)
    (err taskId : JsVal) (before : List StreamInput) (e : ProgressEvent) (u : String)
    (hbefore : ∀ j ∈ before, j.isTerminal = false)
    (hs : e.status = .str "completed") (hu : e.download_url = .str u) :
    streamsOpened (submitHandler page c (.response true (.record err taskId))
      (before ++ [.message (.record e)])) = ["/progress/" ++ taskId.toStr] ∧
    (run css ui (submitHandler page c (.response true (.record err taskId))
      (before ++ [.message (.record e)]))).submitDisabled = false ∧
    (run css ui (submitHandler page c (.response true (.record err taskId))
      (before ++ [.message (.record e)]))).submitLabel = startLabel ∧
    (run css ui (submitHandler page c (.response true (.record err taskId))
      (before ++ [.message (.record e)]))).downloadHidden = false ∧
    (run css ui (submitHandler page c (.response true (.record err taskId))
      (before ++ [.message (.record e)]))).downloadHref = u := by
  have hterm : (StreamInput.message (.record e)).isTerminal = true := by
    simp [StreamInput.isTerminal, hs]
  have hsplit : submitHandler page c (.response true (.record err taskId))
      (before ++ [.message (.record e)])
      = ([.preventDefault, .setDisabled true, .setLabel translatingLabel, .showProgressArea,
          .setBarWidth "0%", .setStatus uploadingMsg, .hideDownload,
          .fetch "/translate" "POST" (formData tab file c),
          .openStream ("/progress/" ++ taskId.toStr)]
          ++ before.flatMap StreamInput.handle) ++ onmessage (.record e) := by
    simp [submitHandler, selectedFile_of_file page tab input file ht hi hf, tryBlock,
      listenForProgress, session_until_terminal before _ [] hbefore hterm, StreamInput.handle]
  refine ⟨?_, ?_⟩
  · simp only [submitHandler, selectedFile_of_file page tab input file ht hi hf, tryBlock,
      listenForProgress]
    have := streamsOpened_session (before ++ [.message (.record e)])
    simp [streamsOpened, List.filterMap_cons, List.filterMap_append] at this ⊢
    exact this
  · rw [hsplit, run_append]
    exact run_completed css _ e u hs hu

/-- Witness of C1: `doc.pdf` submitted with provider `gemini`, task id `t1`, a
running event at 50 and a completed event at 100 with download URL `/dl/t1`. -/
theorem success_scenario_witness :
    streamsOpened scenarioTrace = ["/progress/t1"] ∧
    (run percentParser idleUI scenarioTrace).submitDisabled = false ∧
    (run percentParser idleUI scenarioTrace).submitLabel = startLabel ∧
    (run percentParser idleUI scenarioTrace).downloadHidden = false ∧
    (run percentParser idleUI scenarioTrace).downloadHref = "/dl/t1" :=
  success_scenario percentParser idleUI docsPage sampleControls docsPanel { name := "file", files := [docFile] }
    docFile (by decide) (by decide) (by decide) .undefined (.str "t1")
    [.message (.record halfwayEvent)] doneEvent "/dl/t1" (by decide) rfl rfl

/-! ## Tab switcher: theorems -/

/-- With a plain id the call moves the field name to the opened panel. -/
theorem openTab_plain_id : openTab docsPage ⟨some 1⟩ "subs" = .completed subsPage := by
  decide

/-- An id that starts with a digit is found by `getElementById`, but the selector
text `#1tab input[type="file"]` is no selector and the call throws after the
names were cleared. -/
theorem openTab_digit_id :
    openTab { panels := [docsPanel, digitPanel], links := [true, false] } ⟨some 1⟩ "1tab"
      = .thrown digitPageThrown := by
  decide

/-- C7 at the input `openTab(evt, "x,.tab-content")`, on a page whose second panel
has the id `x,.tab-content`: the call completes and activates that panel, but
the selector text `#x,.tab-content input[type="file"]` is a selector list whose
first match is the file input of the documents panel, so the one input named
`file` lies in the inactive panel `docs` and not in the panel that was opened. -/
theorem openTab_selector_list :
    openTab commaPage ⟨some 1⟩ "x,.tab-content" = .completed commaPageOpened ∧
    parseSelector "x,.tab-content" = .ok [.element (.id "x"), .fileInputIn (.cls "tab-content")] ∧
    activePanels commaPageOpened = ["x,.tab-content"] ∧
    namedPanels commaPageOpened = ["docs"] ∧
    (fileInputs commaPageOpened).countP FileInput.isSubmitted = 1 := by
  refine ⟨by decide, by decide, by decide, by decide, by decide⟩

end AITranslator
